import Mathlib

/-!
Verification development for the browser-side content pipeline of the
3hc-django repository (static/js).  The subsystems embedded here are:

* the Document Converter `convertDeltaToHtml` and its helper `escapeHtml`
  (static/js/blog-detail-loader.js),
* the Content Post-Processor passes `enhanceTables` / `addContentStyling`
  (static/js/blog-detail-loader.js), modelled as pure tree transforms over
  an abstract HTML node type,
* the heuristic list formatter of the about page
  (static/js/about-loader.js, `updateAboutContent`, goals/achievements),
* the resilient API client `API.call` (static/js/dashboard.js).

JavaScript strings are modelled as Lean `String` (lists of characters);
JavaScript truthiness of an optional string/number field is made explicit
(`""` and `0` are falsy).  DOM mutation in the post-processor is modelled
as a transformation of an abstract node tree; network effects in the API
client are modelled by an oracle giving the outcome of each fetch and of
each token-refresh attempt.
-/

namespace ContentPipeline

/-! ## escapeHtml (blog-detail-loader.js, lines 398-406)

The source performs five sequential global replacements, in this order:
`&`→`&amp;`, `<`→`&lt;`, `>`→`&gt;`, `"`→`&quot;`, `'`→`&#039;`.
Because `&` is replaced first, and no replacement string contains any
character that a *later* replacement rewrites, the composition of the five
passes acts independently on each character of the input.  We embed that
per-character action directly. -/

/-- Expansion of one character under the five sequential replaces of
`escapeHtml`. -/
def escapeChar (c : Char) : List Char :=
  if c = '&' then "&amp;".toList
  else if c = '<' then "&lt;".toList
  else if c = '>' then "&gt;".toList
  else if c = '"' then "&quot;".toList
  else if c = '\'' then "&#039;".toList
  else [c]

/-- Character-list form of `escapeHtml`. -/
def escapeList (l : List Char) : List Char :=
  l.flatMap escapeChar

/-- `escapeHtml` of blog-detail-loader.js: escapes `&ltgt"'` into HTML
entities.  (The `str == null` guard of the source returns `""`, which for
string inputs coincides with escaping the empty string; we model string
inputs.) -/
def escapeHtml (s : String) : String :=
  ⟨escapeList s.data⟩

/-- The four characters that must never appear raw in escaped output. -/
def isRawMarkupChar (c : Char) : Bool :=
  c == '<' || c == '>' || c == '"' || c == '\''

/-- Does the character list start with the tail of one of the five
entities `&amp; &lt; &gt; &quot; &#039;` (everything after the `&`)? -/
def startsEnt (l : List Char) : Bool :=
  ['a', 'm', 'p', ';'].isPrefixOf l ||
  ['l', 't', ';'].isPrefixOf l ||
  ['g', 't', ';'].isPrefixOf l ||
  ['q', 'u', 'o', 't', ';'].isPrefixOf l ||
  ['#', '0', '3', '9', ';'].isPrefixOf l

/-- Every `&` in the list begins one of the five escape entities. -/
def okAmp : List Char → Bool
  | [] => true
  | c :: rest => (if c = '&' then startsEnt rest else true) && okAmp rest

/-! ## Document Converter data model

`op.insert` is either a string, an object (possibly carrying `image` or
`formula` fields), or some other value (skipped by the converter).
`op.attributes` is optional; each formatting key is optional, and the
source tests each with JavaScript truthiness. -/

/-- An embed payload: a non-string `insert` object.  Its `image` and
`formula` fields are optional strings. -/
structure EmbedObj where
  image : Option String := none
  formula : Option String := none
deriving Repr, DecidableEq

/-- The `insert` field of an operation. -/
inductive Insert where
  /-- `typeof op.insert === 'string'` -/
  | str (s : String)
  /-- `op.insert && typeof op.insert === 'object'` -/
  | obj (e : EmbedObj)
  /-- any other value (number, null, ...): the converter skips the op -/
  | invalid
deriving Repr, DecidableEq

/-- The optional `attributes` map of an operation.  Absent keys are
`none` / `false`. -/
structure Attrs where
  bold : Bool := false
  italic : Bool := false
  underline : Bool := false
  strike : Bool := false
  header : Option Nat := none
  blockquote : Bool := false
  codeBlock : Bool := false
  code : Bool := false
  list : Option String := none
  link : Option String := none
  alt : Option String := none
deriving Repr, DecidableEq

/-- One operation of the op-log. -/
structure Op where
  insert : Insert
  attributes : Option Attrs := none
deriving Repr, DecidableEq

/-- The converter input: `convertDeltaToHtml(delta)` guards
`if (!delta || !delta.ops) return ''`. -/
inductive DeltaInput where
  /-- `delta` itself falsy (null/undefined) -/
  | absent
  /-- `delta.ops` falsy (object without an ops array) -/
  | noOps
  /-- an object carrying an ops array -/
  | delta (ops : List Op)
deriving Repr, DecidableEq

/-- JavaScript truthiness of an optional string field: absent or `""` is
falsy. -/
def truthyStr : Option String → Bool
  | some s => !(s == "")
  | none => false

/-- JavaScript truthiness of the optional numeric `header` field: absent
or `0` is falsy. -/
def truthyNat : Option Nat → Bool
  | some n => !(n == 0)
  | none => false

/-- The `list` attribute of an op, `none` when `attributes` is absent
(mirrors `op.attributes && op.attributes.list`). -/
def opList (o : Op) : Option String :=
  match o.attributes with
  | some a => a.list
  | none => none

/-- Truthiness of `prevOp && prevOp.attributes && prevOp.attributes.header`
for an optional op. -/
def optHeaderTruthy (o : Option Op) : Bool :=
  match o with
  | some p =>
    match p.attributes with
    | some a => truthyNat a.header
    | none => false
  | none => false

/-- Truthiness of `o && o.attributes && o.attributes['code-block']` for an
optional op. -/
def optCodeBlock (o : Option Op) : Bool :=
  match o with
  | some p =>
    match p.attributes with
    | some a => a.codeBlock
    | none => false
  | none => false

/-- Truthiness of `o && o.attributes && o.attributes.list` for an optional
op. -/
def optListTruthy (o : Option Op) : Bool :=
  match o with
  | some p => truthyStr (opList p)
  | none => false

/-- `delta.ops[index - 1]`: JavaScript indexing with `index - 1 = -1`
yields `undefined`, so index `0` has no previous op. -/
def prevOpAt (ops : List Op) (index : Nat) : Option Op :=
  if index = 0 then none else ops[index - 1]?

/-- `delta.ops[index + 1]`. -/
def nextOpAt (ops : List Op) (index : Nat) : Option Op :=
  ops[index + 1]?

/-- `Math.min(op.attributes.header, 6)` — the header level actually
rendered. -/
def headerLevel (h : Nat) : Nat := min h 6

/-- `currentListType === 'ordered' ? 'ol' : 'ul'`. -/
def listTag (currentListType : String) : String :=
  if currentListType == "ordered" then "ol" else "ul"

/-- The converter state threaded across operations: accumulated html,
`inList`, `listType`. -/
structure ConvState where
  html : String
  inList : Bool
  listType : String
deriving Repr, DecidableEq

/-- The fragment and state update produced by one *text* operation
(the `typeof op.insert === 'string'` branch of `convertDeltaToHtml`):
builds `tags`/`closingTags` in the source's fixed order (bold, italic,
underline, strike, header, blockquote, code-block, inline code, list,
link) and returns `tags ++ escaped text ++ closingTags`. -/
def textEmit (ops : List Op) (index : Nat) (op : Op) (t : String)
    (inList : Bool) (listType : String) : String × Bool × String :=
  let text := escapeHtml t
  match op.attributes with
  | none => (text, inList, listType)
  | some a =>
    let tags := ""
    let closingTags := ""
    -- Bold
    let tags := if a.bold then tags ++ "<strong>" else tags
    let closingTags := if a.bold then "</strong>" ++ closingTags else closingTags
    -- Italic
    let tags := if a.italic then tags ++ "<em>" else tags
    let closingTags := if a.italic then "</em>" ++ closingTags else closingTags
    -- Underline
    let tags := if a.underline then tags ++ "<u>" else tags
    let closingTags := if a.underline then "</u>" ++ closingTags else closingTags
    -- Strikethrough
    let tags := if a.strike then tags ++ "<s>" else tags
    let closingTags := if a.strike then "</s>" ++ closingTags else closingTags
    -- Headers
    let prevHadHeader := optHeaderTruthy (prevOpAt ops index)
    let hdrOpen :=
      truthyNat a.header && !prevHadHeader
    let level := headerLevel ((a.header).getD 0)
    let tags :=
      if hdrOpen then
        tags ++ "<h" ++ toString level ++ " class=\"content-header\">"
      else tags
    let closingTags :=
      if hdrOpen then "</h" ++ toString level ++ ">" ++ closingTags
      else closingTags
    -- Blockquote
    let tags :=
      if a.blockquote then tags ++ "<blockquote class=\"content-blockquote\">"
      else tags
    let closingTags :=
      if a.blockquote then "</blockquote>" ++ closingTags else closingTags
    -- Code block
    let prevIsCodeBlock := optCodeBlock (prevOpAt ops index)
    let nextIsCodeBlock := optCodeBlock (nextOpAt ops index)
    let tags :=
      if a.codeBlock && !prevIsCodeBlock then
        tags ++ "<pre class=\"content-pre\"><code>"
      else tags
    let closingTags :=
      if a.codeBlock && !nextIsCodeBlock then
        "</code></pre>" ++ closingTags
      else closingTags
    -- Inline code
    let tags := if a.code then tags ++ "<code class=\"inline-code\">" else tags
    let closingTags := if a.code then "</code>" ++ closingTags else closingTags
    -- Lists
    let listOn := truthyStr a.list
    let currentListType := (a.list).getD ""
    let prevListType := optListTruthy (prevOpAt ops index)
    let listOpens := listOn && !prevListType
    let tags :=
      if listOpens then
        tags ++ "<" ++ listTag currentListType ++ " class=\"content-list\">"
      else tags
    let inList := if listOpens then true else inList
    let listType := if listOpens then listTag currentListType else listType
    let tags := if listOn then tags ++ "<li class=\"content-list-item\">" else tags
    let closingTags := if listOn then "</li>" ++ closingTags else closingTags
    let nextListType := optListTruthy (nextOpAt ops index)
    let listCloses := listOn && (!nextListType && inList)
    let closingTags :=
      if listCloses then "</" ++ listType ++ ">" ++ closingTags
      else closingTags
    let inList := if listCloses then false else inList
    -- Links
    let tags :=
      if truthyStr a.link then
        tags ++ "<a href=\"" ++ escapeHtml ((a.link).getD "") ++
          "\" target=\"_blank\" rel=\"noopener noreferrer\">"
      else tags
    let closingTags :=
      if truthyStr a.link then "</a>" ++ closingTags else closingTags
    (tags ++ text ++ closingTags, inList, listType)

/-- The fragment and state update produced by one operation of the op-log
(the body of the `forEach` of `convertDeltaToHtml`). -/
def opEmit (ops : List Op) (index : Nat) (op : Op)
    (inList : Bool) (listType : String) : String × Bool × String :=
  match op.insert with
  | .str t => textEmit ops index op t inList listType
  | .obj e =>
    if truthyStr e.image then
      let imgUrl := escapeHtml ((e.image).getD "")
      -- `op.attributes?.alt || ''` — note: NOT escaped
      let altV :=
        match op.attributes with
        | some a => (a.alt).getD ""
        | none => ""
      ("<img src=\"" ++ imgUrl ++ "\" alt=\"" ++ altV ++
        "\" class=\"content-image\">", inList, listType)
    else if truthyStr e.formula then
      ("<span class=\"math-formula\">" ++ escapeHtml ((e.formula).getD "") ++
        "</span>", inList, listType)
    else ("", inList, listType)
  | .invalid => ("", inList, listType)

/-- One `forEach` step: look up the op at `index` and append its
fragment. -/
def convStep (ops : List Op) (st : ConvState) (index : Nat) : ConvState :=
  match ops[index]? with
  | none => st
  | some op =>
    let r := opEmit ops index op st.inList st.listType
    { html := st.html ++ r.1, inList := r.2.1, listType := r.2.2 }

/-- The `forEach` over the whole op-log, starting from
`html = '', inList = false, listType = ''`. -/
def convertOps (ops : List Op) : String :=
  ((List.range ops.length).foldl (convStep ops)
    { html := "", inList := false, listType := "" }).html

/-- `convertDeltaToHtml` of blog-detail-loader.js. -/
def convertDeltaToHtml : DeltaInput → String
  | .absent => ""
  | .noOps => ""
  | .delta ops => convertOps ops

/-- JavaScript `String.prototype.split(sep)` for a one-character
separator, on the character list (empty segments preserved). -/
def splitChAux (sep : Char) : List Char → List Char → List String
  | [], acc => [⟨acc.reverse⟩]
  | c :: rest, acc =>
    if c = sep then ⟨acc.reverse⟩ :: splitChAux sep rest []
    else splitChAux sep rest (c :: acc)

/-- `s.split(sep)` for a one-character separator. -/
def splitCh (sep : Char) (s : String) : List String :=
  splitChAux sep s.data []

/-- JavaScript `String.prototype.trim()`: strip leading and trailing
whitespace (`\s` modelled by `Char.isWhitespace`). -/
def jsTrim (s : String) : String :=
  ⟨((s.data.dropWhile Char.isWhitespace).reverse.dropWhile
      Char.isWhitespace).reverse⟩

/-! ## Content Post-Processor (blog-detail-loader.js, lines 12-42, 215-393)

The source mutates a live DOM (`document.createElement('div')`,
`innerHTML`, `querySelectorAll`, inline-style writes).  We model the
parsed HTML as an abstract node tree and each pass as a pure tree
transform, as the data actually flowing through the passes.  An element
carries its tag, its `className` string, its inline style, and its other
attributes.  Inline styles are ordered key/value lists: reading an unset
property yields `""` (falsy), writing updates in place or appends —
matching CSSOM behaviour.  Keys mirror the exact source constructs:
`cssText`-assigned blocks are carried as their parsed CSS-name lists,
single-property writes (`style.marginTop = ...`) use the JS property
name they are written under. -/

/-- An abstract HTML node. -/
inductive Node where
  | text (s : String)
  | elem (tag : String) (className : String)
      (style : List (String × String)) (attrs : List (String × String))
      (children : List Node)

/-- Read a property from an ordered key/value list; unset reads as `""`
(falsy), as in the CSSOM / DOM attribute model. -/
def styleGet : List (String × String) → String → String
  | [], _ => ""
  | kv :: rest, k => if kv.1 == k then kv.2 else styleGet rest k

/-- Write a property into an ordered key/value list: update in place if
present, else append. -/
def styleSet : List (String × String) → String → String → List (String × String)
  | [], k, v => [(k, v)]
  | kv :: rest, k, v =>
    if kv.1 == k then (k, v) :: rest else kv :: styleSet rest k v

/-- `if (!el.style.P) el.style.P = v` — apply a style only when the
property is unset. -/
def applyProp (k v : String) (st : List (String × String)) :
    List (String × String) :=
  if styleGet st k == "" then styleSet st k v else st

/-- `if (!el.style.cssText) el.style.cssText = ...` — replace the whole
style only when it is empty. -/
def cssTextIfEmpty (dflt st : List (String × String)) :
    List (String × String) :=
  match st with
  | [] => dflt
  | _ => st

/-- JavaScript `String.prototype.includes`: substring test. -/
def jsIncludes (s sub : String) : Bool :=
  decide (sub.data <:+: s.data)

/-- `if (!el.className.includes(c)) el.className = c`. -/
def includesSet (cn target : String) : String :=
  if jsIncludes cn target then cn else target

/-- `el.classList.add(c)`: append the class unless already present as a
whitespace-separated word. -/
def classListAdd (cn c : String) : String :=
  if (splitCh ' ' cn).contains c then cn
  else if cn == "" then c else cn ++ " " ++ c

/-! ### enhanceTables (blog-detail-loader.js, lines 215-261) -/

/-- `wrapper.style.cssText = 'overflow-x: auto; margin: 20px 0;'`. -/
def wrapperCss : List (String × String) :=
  [("overflow-x", "auto"), ("margin", "20px 0")]

/-- `table.style.cssText = 'width: 100%; border-collapse: collapse;
margin: 0;'` (this overwrites the `display`/`tableLayout` writes made
just before it). -/
def tableCss : List (String × String) :=
  [("width", "100%"), ("border-collapse", "collapse"), ("margin", "0")]

/-- `th.style.cssText = ...`. -/
def thCss : List (String × String) :=
  [("background-color", "#f5f5f5"), ("border", "1px solid #ddd"),
   ("padding", "12px"), ("text-align", "left"), ("font-weight", "600")]

/-- `td.style.cssText = ...`. -/
def tdCss : List (String × String) :=
  [("border", "1px solid #ddd"), ("padding", "10px 12px")]

mutual
/-- The `querySelectorAll('th')` / `querySelectorAll('td')` passes of
`enhanceTables`: overwrite the style of every `th`/`td` descendant. -/
def cellNode : Node → Node
  | .text s => .text s
  | .elem tag cn st attrs children =>
    let st := if tag == "th" then thCss else if tag == "td" then tdCss else st
    .elem tag cn st attrs (cellNodes children)
def cellNodes : List Node → List Node
  | [] => []
  | n :: ns => cellNode n :: cellNodes ns
end

mutual
/-- The alternating-row pass: `rows.forEach((row, rowIndex) => if
(rowIndex % 2 === 0) row.style.backgroundColor = '#f9f9f9')`, counting
`tr` descendants in document (pre-)order. -/
def stripeNode : Node → Nat → Node × Nat
  | .text s, k => (.text s, k)
  | .elem tag cn st attrs children, k =>
    let isRow := tag == "tr"
    let st := if isRow && decide (k % 2 = 0)
      then styleSet st "backgroundColor" "#f9f9f9" else st
    let k := if isRow then k + 1 else k
    let r := stripeNodes children k
    (.elem tag cn st attrs r.1, r.2)
def stripeNodes : List Node → Nat → List Node × Nat
  | [], k => ([], k)
  | n :: ns, k =>
    let r := stripeNode n k
    let r2 := stripeNodes ns r.2
    (r.1 :: r2.1, r2.2)
end

mutual
/-- Structural depth measure of a node (independent of the strings and
styles it carries), used as the termination measure of `enhanceNode`. -/
def ndepth : Node → Nat
  | .text _ => 1
  | .elem _ _ _ _ children => 1 + ldepth children
/-- Structural depth measure of a forest. -/
def ldepth : List Node → Nat
  | [] => 0
  | n :: ns => ndepth n + ldepth ns
end

theorem ndepth_pos (n : Node) : 1 ≤ ndepth n := by
  cases n <;> simp [ndepth]

mutual
theorem ndepth_cellNode (n : Node) : ndepth (cellNode n) = ndepth n := by
  cases n with
  | text s => rfl
  | elem tag cn st attrs children =>
    simp [cellNode, ndepth, ldepth_cellNodes children]
theorem ldepth_cellNodes (l : List Node) : ldepth (cellNodes l) = ldepth l := by
  cases l with
  | nil => rfl
  | cons n ns =>
    simp [cellNodes, ldepth, ndepth_cellNode n, ldepth_cellNodes ns]
end

mutual
theorem ndepth_stripeNode (n : Node) (k : Nat) :
    ndepth (stripeNode n k).1 = ndepth n := by
  cases n with
  | text s => rfl
  | elem tag cn st attrs children =>
    simp [stripeNode, ndepth, ldepth_stripeNodes children]
theorem ldepth_stripeNodes (l : List Node) (k : Nat) :
    ldepth (stripeNodes l k).1 = ldepth l := by
  cases l with
  | nil => rfl
  | cons n ns =>
    simp [stripeNodes, ldepth, ndepth_stripeNode n, ldepth_stripeNodes ns]
end

mutual
/-- `enhanceTables`: every `table` is styled (whole-style overwrite,
`content-table` class), its `th`/`td` descendants styled, its `tr`
descendants striped, and the table is wrapped in a new
`div.table-responsive` parent.  Tables are processed in document order:
an outer table first (its passes also touch nested cells), then tables
nested inside it.  The wrap (`insertBefore` + `appendChild`) is modelled
by emitting the wrapper node in the table's place. -/
def enhanceNode : Node → Node
  | .text s => .text s
  | .elem tag cn st attrs children =>
    if tag == "table" then
      let st := tableCss
      let cn := classListAdd cn "content-table"
      let children := cellNodes children
      let children := (stripeNodes children 0).1
      let children := enhanceNodes children
      .elem "div" "table-responsive" wrapperCss []
        [.elem tag cn st attrs children]
    else
      .elem tag cn st attrs (enhanceNodes children)
termination_by n => 2 * ndepth n
decreasing_by
  · simp [ndepth, ldepth_stripeNodes, ldepth_cellNodes]; omega
  · simp [ndepth, ldepth]; omega
def enhanceNodes : List Node → List Node
  | [] => []
  | n :: ns => enhanceNode n :: enhanceNodes ns
termination_by l => 2 * ldepth l + 1
decreasing_by
  · have := ndepth_pos n
    simp [ldepth]; omega
  · have := ndepth_pos n
    simp [ldepth]; omega
end

/-- `enhanceTables` of blog-detail-loader.js, as a transform of the
parsed tree. -/
def enhanceTables (nodes : List Node) : List Node :=
  enhanceNodes nodes

/-! ### addContentStyling (blog-detail-loader.js, lines 266-393)

The source runs one `querySelectorAll` pass per element kind; the
selected sets are disjoint (headers, `p`, `blockquote`, `pre`,
`code:not(pre code)`, `ul`/`ol`, `li`, `img`, `a`), so the passes are
modelled as a single traversal applying the rule of each element's tag.
The `:not(pre code)` restriction is carried as an inside-`pre` flag. -/

/-- blockquote `cssText` block. -/
def bqCss : List (String × String) :=
  [("border-left", "4px solid #3498db"), ("padding-left", "20px"),
   ("margin", "25px 0"), ("color", "#555"), ("font-style", "italic"),
   ("background-color", "#f8f9fa"), ("padding", "15px")]

/-- pre `cssText` block. -/
def preCss : List (String × String) :=
  [("background-color", "#f5f5f5"), ("padding", "20px"),
   ("border-radius", "4px"), ("overflow-x", "auto"), ("margin", "20px 0"),
   ("font-family", "\"Courier New\", monospace")]

/-- inline-code `cssText` block. -/
def codeCss : List (String × String) :=
  [("background-color", "#f0f0f0"), ("padding", "2px 6px"),
   ("border-radius", "3px"), ("font-family", "\"Courier New\", monospace"),
   ("font-size", "0.9em")]

/-- header `marginTop` by tag. -/
def hdrMarginTop (tag : String) : String :=
  if tag == "h1" then "40px" else if tag == "h2" then "35px"
  else if tag == "h3" then "30px" else "25px"

/-- header `marginBottom` by tag. -/
def hdrMarginBottom (tag : String) : String :=
  if tag == "h1" then "20px" else if tag == "h2" then "18px"
  else if tag == "h3" then "16px" else "14px"

/-- Is this one of the header tags matched by
`querySelectorAll('h1, h2, h3, h4, h5, h6')`? -/
def isHeaderTag (tag : String) : Bool :=
  tag == "h1" || tag == "h2" || tag == "h3" ||
    tag == "h4" || tag == "h5" || tag == "h6"

/-- The per-element rule of `addContentStyling`: given the inside-`pre`
flag, the tag and the element's className/style/attrs, return the updated
className/style/attrs.  Children are untouched by the rule itself. -/
def applyRules (p : Bool) (tag cn : String)
    (st attrs : List (String × String)) :
    String × List (String × String) × List (String × String) :=
  if isHeaderTag tag then
    let cn := includesSet cn "content-header"
    let st := applyProp "marginTop" (hdrMarginTop tag) st
    let st := applyProp "marginBottom" (hdrMarginBottom tag) st
    let st := applyProp "color" "#2c3e50" st
    (cn, st, attrs)
  else if tag == "p" then
    let cn := includesSet cn "content-paragraph"
    let st := applyProp "marginBottom" "16px" st
    let st := applyProp "lineHeight" "1.6" st
    (cn, st, attrs)
  else if tag == "blockquote" then
    let cn := includesSet cn "content-blockquote"
    let st := cssTextIfEmpty bqCss st
    (cn, st, attrs)
  else if tag == "pre" then
    let cn := includesSet cn "content-pre"
    let st := cssTextIfEmpty preCss st
    (cn, st, attrs)
  else if tag == "code" && !p then
    let cn := includesSet cn "inline-code"
    let st := cssTextIfEmpty codeCss st
    (cn, st, attrs)
  else if tag == "ul" || tag == "ol" then
    let cn := includesSet cn "content-list"
    let st := applyProp "margin" "20px 0 20px 30px" st
    (cn, st, attrs)
  else if tag == "li" then
    let cn := includesSet cn "content-list-item"
    let st := applyProp "marginBottom" "8px" st
    (cn, st, attrs)
  else if tag == "img" then
    let cn := includesSet cn "content-image"
    let st := applyProp "maxWidth" "100%" st
    let st := applyProp "height" "auto" st
    let st := applyProp "margin" "20px 0" st
    let st := applyProp "display" "block" st
    let st := applyProp "borderRadius" "4px" st
    (cn, st, attrs)
  else if tag == "a" then
    -- `if (link.href && !link.href.startsWith('#'))` — we model the
    -- href attribute value as the tested string
    let href := styleGet attrs "href"
    let hrefHash :=
      match href.data with
      | c :: _ => c == '#'
      | [] => false
    let attrs :=
      if !(href == "") && !hrefHash then
        styleSet (styleSet attrs "target" "_blank") "rel" "noopener noreferrer"
      else attrs
    (cn, st, attrs)
  else (cn, st, attrs)

mutual
/-- `addContentStyling` traversal (`p` = inside a `pre` element). -/
def styleNode (p : Bool) : Node → Node
  | .text s => .text s
  | .elem tag cn st attrs children =>
    let r := applyRules p tag cn st attrs
    .elem tag r.1 r.2.1 r.2.2 (styleNodes (p || tag == "pre") children)
def styleNodes (p : Bool) : List Node → List Node
  | [] => []
  | n :: ns => styleNode p n :: styleNodes p ns
end

/-- `addContentStyling` of blog-detail-loader.js, as a transform of the
parsed tree. -/
def addContentStyling (nodes : List Node) : List Node :=
  styleNodes false nodes

/-- The HTML path of `processQuillContent` (blog-detail-loader.js, lines
12-42) on an already-parsed tree, with the math collaborator unavailable
(`processMathFormulas` is the identity when `typeof katex ===
'undefined'`): tables pass, then generic styling pass. -/
def processQuillContentHtml (nodes : List Node) : List Node :=
  addContentStyling (enhanceTables nodes)

mutual
/-- Number of `div.table-responsive` wrapper elements in a node. -/
def wrapCount : Node → Nat
  | .text _ => 0
  | .elem tag cn _ _ children =>
    (if tag == "div" && cn == "table-responsive" then 1 else 0) +
      wrapCounts children
/-- Number of `div.table-responsive` wrapper elements in a forest. -/
def wrapCounts : List Node → Nat
  | [] => 0
  | n :: ns => wrapCount n + wrapCounts ns
end

/-! ## Heuristic list formatter (about-loader.js, `updateAboutContent`,
goals: lines 192-221; achievements: lines 238-268 — both branches use the
same line splitting, list detection and marker stripping). -/

/-- `content.split('\n').filter(line => line.trim())`. -/
def contentLines (content : String) : List String :=
  (splitCh '\n' content).filter (fun l => !(jsTrim l == ""))

/-- The list-detection test `/^[\d•\-\*]/.test(line.trim())`. -/
def looksLikeListLine (l : String) : Bool :=
  match (jsTrim l).data with
  | c :: _ => c.isDigit || c == '•' || c == '-' || c == '*'
  | [] => false

/-- `lines.some(line => /^[\d•\-\*]/.test(line.trim()))`. -/
def looksLikeList (lines : List String) : Bool :=
  lines.any looksLikeListLine

/-- One character of the marker class `[\d\.\)•\-\*]`. -/
def markerClass (c : Char) : Bool :=
  c.isDigit || c == '.' || c == ')' || c == '•' || c == '-' || c == '*'

/-- `line.trim().replace(/^[\d\.\)•\-\*]\s*/, '')`: the regex matches
exactly ONE character of the marker class followed by a whitespace run,
and removes them.  (`\s` is modelled by `Char.isWhitespace`.) -/
def cleanLine (l : String) : String :=
  let t := jsTrim l
  match t.data with
  | c :: rest =>
    if markerClass c then ⟨rest.dropWhile Char.isWhitespace⟩ else t
  | [] => t

/-- The texts of the list entries rendered by the goals/achievements list
branch: each nonempty line is cleaned with `cleanLine`, and only
truthy (nonempty) cleaned lines produce an entry (`if (cleanLine)`). -/
def listEntryTexts (content : String) : List String :=
  ((contentLines content).map cleanLine).filter (fun s => !(s == ""))

/-- The goals branch chooses the list rendering only when the content
has a newline and some line looks like a list line; returns the entry
texts in that case. -/
def goalsEntries (content : String) : Option (List String) :=
  if content.data.contains '\n' && looksLikeList (contentLines content) then
    some (listEntryTexts content)
  else none

/-! ## Resilient API client (dashboard.js, `API.call`, lines 563-680)

The network is an oracle `net : Nat → FetchOutcome` giving the outcome of
the n-th `fetch`, and `refresh : Nat → Bool` the outcome of the n-th
`Auth.refreshAccessToken()`.  The decoded response body is abstracted as
a string.  The per-call state (`i`, `tokenRefreshed`, `lastError`,
`attemptCount`) and the backoff delays awaited between attempts are
threaded explicitly; delays are recorded in order in `delays`. -/

/-- Outcome of one `fetch`. -/
inductive FetchOutcome where
  /-- a response with this HTTP status and decoded body -/
  | response (status : Nat) (body : String)
  /-- `fetch` rejected with a network error (not an abort) -/
  | netError
  /-- the timeout fired: `fetch` rejected with an `AbortError` -/
  | abortError
deriving Repr, DecidableEq

/-- The error values `API.call` can throw. -/
inductive ApiError where
  /-- `new Error('Session expired. Please login again.')` (no `.status`) -/
  | sessionExpired
  /-- the constructed HTTP error carrying `.status` and the decoded body -/
  | httpError (status : Nat) (body : String)
  /-- a network failure (no `.status`, name not `AbortError`) -/
  | network
  /-- an abort (timeout) error (name `AbortError`) -/
  | abortErr
deriving Repr, DecidableEq

/-- Completion of a call: the resolved body or the thrown value.
`API.call` can throw `lastError` while it is still `null`; the thrown
value is therefore an `Option ApiError`, `none` modelling `null`. -/
inductive CallOutcome where
  | ok (body : String)
  | thrown (err : Option ApiError)
deriving Repr, DecidableEq

/-- Result of a call together with its observable trace. -/
structure CallResult where
  result : CallOutcome
  /-- final value of `attemptCount` (number of fetches issued) -/
  attempts : Nat
  /-- number of `Auth.refreshAccessToken()` invocations -/
  refreshes : Nat
  /-- backoff delays awaited, in order -/
  delays : List Nat
deriving Repr, DecidableEq

/-- `Math.min(1000 * Math.pow(2, i), 10000)` — the backoff delay before
retrying after attempt `i`. -/
def backoffDelay (i : Nat) : Nat :=
  min (1000 * 2 ^ i) 10000

namespace API

/-- The `for (let i = 0; i < retries; i++)` loop of `API.call`.  Each
iteration issues one fetch; the `catch` block is inlined at each throw
site (refresh failure, non-ok response, network error, abort). -/
def callLoop (net : Nat → FetchOutcome) (refresh : Nat → Bool)
    (retries i fetchIdx refreshIdx : Nat) (tokenRefreshed : Bool)
    (lastError : Option ApiError) (attempts refreshes : Nat)
    (delays : List Nat) : CallResult :=
  if h : i < retries then
    let attempts := attempts + 1
    match net fetchIdx with
    | .response status body =>
      if status == 401 && !tokenRefreshed then
        if refresh refreshIdx then
          -- `tokenRefreshed = true; continue` — the `continue` still
          -- runs the loop increment, so the refresh retry consumes a
          -- retry slot
          callLoop net refresh retries (i + 1) (fetchIdx + 1)
            (refreshIdx + 1) true lastError attempts (refreshes + 1) delays
        else
          -- `throw new Error('Session expired...')`, caught by the
          -- catch: no `.status`, name not AbortError ⇒ retryable
          let lastError := some ApiError.sessionExpired
          if i < retries - 1 then
            callLoop net refresh retries (i + 1) (fetchIdx + 1)
              (refreshIdx + 1) tokenRefreshed lastError attempts
              (refreshes + 1) (delays ++ [backoffDelay i])
          else
            callLoop net refresh retries (i + 1) (fetchIdx + 1)
              (refreshIdx + 1) tokenRefreshed lastError attempts
              (refreshes + 1) delays
      else if 200 ≤ status && status < 300 then
        -- `response.ok` ⇒ return the decoded body
        { result := .ok body, attempts := attempts,
          refreshes := refreshes, delays := delays }
      else
        -- non-ok: construct and throw the HTTP error; the catch's
        -- `if (error.status && error.status !== 401) throw error`
        -- rethrows it as terminal unless the status is 401 (or 0, which
        -- is falsy)
        let err := ApiError.httpError status body
        let lastError := some err
        if !(status == 0) && !(status == 401) then
          { result := .thrown lastError, attempts := attempts,
            refreshes := refreshes, delays := delays }
        else if i < retries - 1 then
          callLoop net refresh retries (i + 1) (fetchIdx + 1) refreshIdx
            tokenRefreshed lastError attempts refreshes
            (delays ++ [backoffDelay i])
        else
          callLoop net refresh retries (i + 1) (fetchIdx + 1) refreshIdx
            tokenRefreshed lastError attempts refreshes delays
    | .netError =>
      -- fetch rejected: no `.status`, name not AbortError ⇒ retryable
      let lastError := some ApiError.network
      if i < retries - 1 then
        callLoop net refresh retries (i + 1) (fetchIdx + 1) refreshIdx
          tokenRefreshed lastError attempts refreshes
          (delays ++ [backoffDelay i])
      else
        callLoop net refresh retries (i + 1) (fetchIdx + 1) refreshIdx
          tokenRefreshed lastError attempts refreshes delays
    | .abortError =>
      -- `error.name === 'AbortError'`: delay and continue when budget
      -- remains; otherwise fall through the catch (no `.status`, and the
      -- second delay guard is false) to the next iteration
      let lastError := some ApiError.abortErr
      if i < retries - 1 then
        callLoop net refresh retries (i + 1) (fetchIdx + 1) refreshIdx
          tokenRefreshed lastError attempts refreshes
          (delays ++ [backoffDelay i])
      else
        callLoop net refresh retries (i + 1) (fetchIdx + 1) refreshIdx
          tokenRefreshed lastError attempts refreshes delays
  else
    -- loop exhausted: `throw lastError` (possibly still null)
    { result := .thrown lastError, attempts := attempts,
      refreshes := refreshes, delays := delays }
termination_by retries - i
decreasing_by all_goals omega

/-- `API.call` of dashboard.js with an explicit retry budget, run against
the given network/refresh oracles. -/
def call (net : Nat → FetchOutcome) (refresh : Nat → Bool)
    (retries : Nat) : CallResult :=
  callLoop net refresh retries 0 0 0 false none 0 0 []

end API

/-! ## Lemmas about escaping -/

theorem escapeChar_not_special (a c : Char) (hc : c ∈ escapeChar a) :
    isRawMarkupChar c = false := by
  unfold escapeChar at hc
  split_ifs at hc with h1 h2 h3 h4 h5
  · rw [show "&amp;".toList = ['&', 'a', 'm', 'p', ';'] from rfl] at hc
    fin_cases hc <;> decide
  · rw [show "&lt;".toList = ['&', 'l', 't', ';'] from rfl] at hc
    fin_cases hc <;> decide
  · rw [show "&gt;".toList = ['&', 'g', 't', ';'] from rfl] at hc
    fin_cases hc <;> decide
  · rw [show "&quot;".toList = ['&', 'q', 'u', 'o', 't', ';'] from rfl] at hc
    fin_cases hc <;> decide
  · rw [show "&#039;".toList = ['&', '#', '0', '3', '9', ';'] from rfl] at hc
    fin_cases hc <;> decide
  · simp only [List.mem_singleton] at hc
    subst hc
    simp [isRawMarkupChar, h2, h3, h4, h5]

theorem escapeList_not_special (l : List Char) (c : Char)
    (hc : c ∈ escapeList l) : isRawMarkupChar c = false := by
  rw [escapeList, List.mem_flatMap] at hc
  obtain ⟨a, _, hca⟩ := hc
  exact escapeChar_not_special a c hca

theorem okAmp_escapeChar_append (a : Char) (l : List Char) :
    okAmp (escapeChar a ++ l) = okAmp l := by
  unfold escapeChar
  split_ifs with h1 h2 h3 h4 h5
  · rw [show "&amp;".toList ++ l = '&' :: 'a' :: 'm' :: 'p' :: ';' :: l from rfl]
    simp [okAmp, startsEnt, List.isPrefixOf]
  · rw [show "&lt;".toList ++ l = '&' :: 'l' :: 't' :: ';' :: l from rfl]
    simp [okAmp, startsEnt, List.isPrefixOf]
  · rw [show "&gt;".toList ++ l = '&' :: 'g' :: 't' :: ';' :: l from rfl]
    simp [okAmp, startsEnt, List.isPrefixOf]
  · rw [show "&quot;".toList ++ l =
        '&' :: 'q' :: 'u' :: 'o' :: 't' :: ';' :: l from rfl]
    simp [okAmp, startsEnt, List.isPrefixOf]
  · rw [show "&#039;".toList ++ l =
        '&' :: '#' :: '0' :: '3' :: '9' :: ';' :: l from rfl]
    simp [okAmp, startsEnt, List.isPrefixOf]
  · show okAmp (a :: l) = okAmp l
    rw [okAmp, if_neg h1, Bool.true_and]

theorem okAmp_escapeList (l : List Char) : okAmp (escapeList l) = true := by
  induction l with
  | nil => rfl
  | cons c rest ih =>
    rw [escapeList, List.flatMap_cons, ← escapeList,
      okAmp_escapeChar_append, ih]

/-! ## Claim theorems -/

/-- C2: for every op-log and every text operation in it, the Document
Converter's contribution for the operation's text is `escapeHtml` of its
insert string, and escaped output never contains a raw `<`, `>`, `"` or
`'`, while every `&` in it begins one of the five escape entities — so
the raw characters of the text never reach the output as markup. -/
theorem c2_round_trip_escaping :
    (∀ s : String, ∀ c ∈ (escapeHtml s).data, isRawMarkupChar c = false) ∧
    (∀ s : String, okAmp (escapeHtml s).data = true) ∧
    (∀ ops index op t inList listType, op.insert = Insert.str t →
      ∃ tags closingTags : String,
        (opEmit ops index op inList listType).1 =
          tags ++ escapeHtml t ++ closingTags) := by
  refine ⟨?_, ?_, ?_⟩
  · intro s c hc
    exact escapeList_not_special s.data c hc
  · intro s
    exact okAmp_escapeList s.data
  · intro ops index op t inList listType h
    obtain ⟨ins, attrs⟩ := op
    simp only at h
    subst h
    cases attrs with
    | none =>
      exact ⟨"", "", by simp [opEmit, textEmit]⟩
    | some a =>
      dsimp only [opEmit, textEmit]
      exact ⟨_, _, rfl⟩

/-- Witness for C2 at concrete inputs. -/
theorem c2_round_trip_escaping_witness :
    isRawMarkupChar '&' = false ∧
    okAmp (escapeHtml "a<b>&\"'").data = true ∧
    ∃ tags closingTags : String,
      (opEmit [⟨Insert.str "a<b>", some { bold := true }⟩] 0
          ⟨Insert.str "a<b>", some { bold := true }⟩ false "").1 =
        tags ++ escapeHtml "a<b>" ++ closingTags :=
  ⟨c2_round_trip_escaping.1 "<" '&' (by decide),
   c2_round_trip_escaping.2.1 "a<b>&\"'",
   c2_round_trip_escaping.2.2 [⟨Insert.str "a<b>", some { bold := true }⟩] 0
     ⟨Insert.str "a<b>", some { bold := true }⟩ "a<b>" false "" rfl⟩

/-- C9: the Document Converter is total and soft-failing: invalid or
absent input yields the empty string, an empty op-log yields the empty
string, and an operation whose insert is neither a string nor a
recognized embed (an unrecognized value, or an object with neither a
truthy `image` nor a truthy `formula`) contributes nothing. -/
theorem c9_total_soft_failing :
    convertDeltaToHtml DeltaInput.absent = "" ∧
    convertDeltaToHtml DeltaInput.noOps = "" ∧
    convertDeltaToHtml (DeltaInput.delta []) = "" ∧
    (∀ ops index op inList listType, op.insert = Insert.invalid →
      opEmit ops index op inList listType = ("", inList, listType)) ∧
    (∀ ops index op e inList listType, op.insert = Insert.obj e →
      truthyStr e.image = false → truthyStr e.formula = false →
      opEmit ops index op inList listType = ("", inList, listType)) := by
  refine ⟨rfl, rfl, rfl, ?_, ?_⟩
  · intro ops index op inList listType h
    obtain ⟨ins, attrs⟩ := op
    simp only at h
    subst h
    rfl
  · intro ops index op e inList listType h hi hf
    obtain ⟨ins, attrs⟩ := op
    simp only at h
    subst h
    simp [opEmit, hi, hf]

/-- Witness for C9 at concrete inputs. -/
theorem c9_total_soft_failing_witness :
    opEmit [⟨Insert.invalid, none⟩] 0 ⟨Insert.invalid, none⟩ false "" =
      ("", false, "") ∧
    opEmit [⟨Insert.obj {}, none⟩] 0 ⟨Insert.obj {}, none⟩ false "" =
      ("", false, "") :=
  ⟨c9_total_soft_failing.2.2.2.1 [⟨Insert.invalid, none⟩] 0
      ⟨Insert.invalid, none⟩ false "" rfl,
   c9_total_soft_failing.2.2.2.2 [⟨Insert.obj {}, none⟩] 0
      ⟨Insert.obj {}, none⟩ {} false "" rfl rfl rfl⟩

/-- C7: the rendered header level is `Math.min(h, 6)`, which for any
truthy header attribute lies in `[1, 6]`; a single-op log with header
`h` renders `<h(min h 6)>`, so header 9 renders as `h6`. -/
theorem c7_header_clamp :
    (∀ h : Nat, h ≠ 0 → 1 ≤ headerLevel h ∧ headerLevel h ≤ 6) ∧
    (∀ h : Nat, h ≠ 0 →
      convertDeltaToHtml (DeltaInput.delta
          [⟨Insert.str "x", some { header := some h }⟩]) =
        "<h" ++ toString (headerLevel h) ++ " class=\"content-header\">x</h" ++
          toString (headerLevel h) ++ ">") := by
  constructor
  · intro h h0
    unfold headerLevel
    omega
  · intro h h0
    have hb : (h == 0) = false := by simpa using h0
    have h6 : headerLevel h = 1 ∨ headerLevel h = 2 ∨ headerLevel h = 3 ∨
        headerLevel h = 4 ∨ headerLevel h = 5 ∨ headerLevel h = 6 := by
      unfold headerLevel; omega
    simp [convertDeltaToHtml, convertOps, List.range_succ,
      convStep, opEmit, textEmit, truthyNat, hb,
      prevOpAt, nextOpAt, optHeaderTruthy, optListTruthy, optCodeBlock,
      truthyStr]
    rcases h6 with hk | hk | hk | hk | hk | hk <;> rw [hk] <;> decide

/-- Witness for C7 at header 9: renders with level 6, not 9. -/
theorem c7_header_clamp_witness :
    (1 ≤ headerLevel 9 ∧ headerLevel 9 ≤ 6) ∧
    convertDeltaToHtml (DeltaInput.delta
        [⟨Insert.str "x", some { header := some 9 }⟩]) =
      "<h" ++ toString (headerLevel 9) ++ " class=\"content-header\">x</h" ++
        toString (headerLevel 9) ++ ">" :=
  ⟨c7_header_clamp.1 9 (by decide), c7_header_clamp.2 9 (by decide)⟩

set_option maxRecDepth 8192 in
/-- C1 counterexample: in the two-op log `bullet "a"`, `ordered "b"`, the
converter does NOT close the `<ul>` before the ordered item and never
opens an `<ol>`: both items land in the single `<ul>` opened by the
first operation (with the close tag emitted before the final `</li>`). -/
theorem c1_counterexample :
    convertDeltaToHtml (DeltaInput.delta
        [⟨Insert.str "a", some { list := some "bullet" }⟩,
         ⟨Insert.str "b", some { list := some "ordered" }⟩]) =
      "<ul class=\"content-list\"><li class=\"content-list-item\">a</li><li class=\"content-list-item\">b</ul></li>" ∧
    ¬ ("<ol".data <:+:
        (convertDeltaToHtml (DeltaInput.delta
          [⟨Insert.str "a", some { list := some "bullet" }⟩,
           ⟨Insert.str "b", some { list := some "ordered" }⟩])).data) := by
  constructor
  · rfl
  · decide

/-- C1 amended: the wrapper tag opens on the first operation of a
contiguous run of operations carrying any truthy list attribute and its
close tag is emitted within the fragment of the run's last operation
(prepended before that item's `</li>`); the wrapper kind is fixed by the
first operation of the run, and a change of list kind (ordered vs
bullet) mid-run closes nothing and opens nothing: whatever truthy list
kind the second operation carries, both items stay inside the single
wrapper chosen by the first operation. -/
theorem c1_list_wrapper_amended :
    (∀ k2 : String, k2 ≠ "" →
      convertDeltaToHtml (DeltaInput.delta
          [⟨Insert.str "a", some { list := some "bullet" }⟩,
           ⟨Insert.str "b", some { list := some k2 }⟩]) =
        "<ul class=\"content-list\"><li class=\"content-list-item\">a</li><li class=\"content-list-item\">b</ul></li>") ∧
    (∀ k2 : String, k2 ≠ "" →
      convertDeltaToHtml (DeltaInput.delta
          [⟨Insert.str "a", some { list := some "ordered" }⟩,
           ⟨Insert.str "b", some { list := some k2 }⟩]) =
        "<ol class=\"content-list\"><li class=\"content-list-item\">a</li><li class=\"content-list-item\">b</ol></li>") := by
  have ha : escapeHtml "a" = "a" := rfl
  have hb : escapeHtml "b" = "b" := rfl
  constructor
  · intro k2 h2
    have hb2 : (k2 == "") = false := by simpa using h2
    simp [convertDeltaToHtml, convertOps, List.range_succ,
      convStep, opEmit, textEmit, truthyNat, hb2, listTag, ha, hb,
      prevOpAt, nextOpAt, optHeaderTruthy, optListTruthy, optCodeBlock,
      truthyStr, opList, ← String.append_assoc]
  · intro k2 h2
    have hb2 : (k2 == "") = false := by simpa using h2
    simp [convertDeltaToHtml, convertOps, List.range_succ,
      convStep, opEmit, textEmit, truthyNat, hb2, listTag, ha, hb,
      prevOpAt, nextOpAt, optHeaderTruthy, optListTruthy, optCodeBlock,
      truthyStr, opList, ← String.append_assoc]

/-- Witness for the amended C1 at bullet-then-ordered and
ordered-then-bullet. -/
theorem c1_list_wrapper_amended_witness :
    convertDeltaToHtml (DeltaInput.delta
        [⟨Insert.str "a", some { list := some "bullet" }⟩,
         ⟨Insert.str "b", some { list := some "ordered" }⟩]) =
      "<ul class=\"content-list\"><li class=\"content-list-item\">a</li><li class=\"content-list-item\">b</ul></li>" ∧
    convertDeltaToHtml (DeltaInput.delta
        [⟨Insert.str "a", some { list := some "ordered" }⟩,
         ⟨Insert.str "b", some { list := some "bullet" }⟩]) =
      "<ol class=\"content-list\"><li class=\"content-list-item\">a</li><li class=\"content-list-item\">b</ol></li>" :=
  ⟨c1_list_wrapper_amended.1 "ordered" (by decide),
   c1_list_wrapper_amended.2 "bullet" (by decide)⟩

/-- C6 counterexample: an image embed whose `alt` attribute is a double
quote is interpolated into the markup unescaped — the output carries the
raw sequence `alt="""` and no `&quot;` entity. -/
theorem c6_counterexample :
    convertDeltaToHtml (DeltaInput.delta
        [⟨Insert.obj { image := some "u" }, some { alt := some "\"" }⟩]) =
      "<img src=\"u\" alt=\"\"\" class=\"content-image\">" ∧
    ("alt=\"\"\"".data <:+:
      (convertDeltaToHtml (DeltaInput.delta
        [⟨Insert.obj { image := some "u" }, some { alt := some "\"" }⟩])).data) ∧
    ¬ ("&quot;".data <:+:
      (convertDeltaToHtml (DeltaInput.delta
        [⟨Insert.obj { image := some "u" }, some { alt := some "\"" }⟩])).data) := by
  refine ⟨by decide, by decide, by decide⟩

/-- C6 amended: an image embed emits an `<img>` tag with the src URL
escaped, and a formula embed emits a marker span with the expression
escaped; the image `alt` attribute value, however, is interpolated
without escaping. -/
theorem c6_embed_escaping_amended :
    (∀ src alt : String, src ≠ "" →
      convertDeltaToHtml (DeltaInput.delta
          [⟨Insert.obj { image := some src }, some { alt := some alt }⟩]) =
        "<img src=\"" ++ escapeHtml src ++ "\" alt=\"" ++ alt ++
          "\" class=\"content-image\">") ∧
    (∀ expr : String, expr ≠ "" →
      convertDeltaToHtml (DeltaInput.delta
          [⟨Insert.obj { formula := some expr }, none⟩]) =
        "<span class=\"math-formula\">" ++ escapeHtml expr ++ "</span>") := by
  constructor
  · intro src alt hsrc
    have hb : (src == "") = false := by simpa using hsrc
    simp [convertDeltaToHtml, convertOps, List.range_succ,
      convStep, opEmit, truthyStr, hb, ← String.append_assoc]
  · intro expr hexpr
    have hb : (expr == "") = false := by simpa using hexpr
    simp [convertDeltaToHtml, convertOps, List.range_succ,
      convStep, opEmit, truthyStr, hb, ← String.append_assoc]

/-- Witness for the amended C6 at concrete embeds. -/
theorem c6_embed_escaping_amended_witness :
    convertDeltaToHtml (DeltaInput.delta
        [⟨Insert.obj { image := some "a&b" }, some { alt := some "t" }⟩]) =
      "<img src=\"" ++ escapeHtml "a&b" ++ "\" alt=\"" ++ "t" ++
        "\" class=\"content-image\">" ∧
    convertDeltaToHtml (DeltaInput.delta
        [⟨Insert.obj { formula := some "x<y" }, none⟩]) =
      "<span class=\"math-formula\">" ++ escapeHtml "x<y" ++ "</span>" :=
  ⟨c6_embed_escaping_amended.1 "a&b" "t" (by decide),
   c6_embed_escaping_amended.2 "x<y" (by decide)⟩

/-- C8 (code bug): on input lines `"1. First\n2. Second"` the heuristic
list formatter takes the list branch but the marker-stripping regex
`/^[\d\.\)•\-\*]\s*/` removes only ONE marker-class character plus
following whitespace, so the rendered entry texts are `". First"` and
`". Second"`, not `"First"` and `"Second"` as specified. -/
theorem c8_marker_stripping_bug :
    goalsEntries "1. First\n2. Second" = some [". First", ". Second"] ∧
    goalsEntries "1. First\n2. Second" ≠ some ["First", "Second"] ∧
    cleanLine "1. First" = ". First" ∧
    cleanLine "2. Second" = ". Second" ∧
    cleanLine "• Item" = "Item" := by
  refine ⟨by decide, by decide, rfl, rfl, rfl⟩

/-- C10: with a retry budget of 0 the attempt loop never runs: no fetch
is issued, no refresh happens, no delay is awaited, and the call throws
the initial `lastError` value, which is still null. -/
theorem c10_zero_budget (net : Nat → FetchOutcome) (refresh : Nat → Bool) :
    API.call net refresh 0 =
      { result := CallOutcome.thrown none, attempts := 0, refreshes := 0,
        delays := [] } := by
  rw [API.call, API.callLoop]
  simp

/-- C4: against a network that fails with a network error twice and then
returns 200, `call` with retry budget 3 returns the success body, makes
exactly 3 attempts and no refresh, and waits the two backoff delays
`min(1000·2^i, 10000)` (1000ms then 2000ms) — the delay doubles per
attempt with a 10000ms ceiling. -/
theorem c4_retry_backoff :
    (∀ (net : Nat → FetchOutcome) (refresh : Nat → Bool) (b : String),
      net 0 = FetchOutcome.netError → net 1 = FetchOutcome.netError →
      net 2 = FetchOutcome.response 200 b →
      API.call net refresh 3 =
        { result := CallOutcome.ok b, attempts := 3, refreshes := 0,
          delays := [backoffDelay 0, backoffDelay 1] }) ∧
    backoffDelay 0 = 1000 ∧ backoffDelay 1 = 2000 ∧
    (∀ i : Nat, backoffDelay (i + 1) = min (2 * backoffDelay i) 10000) ∧
    (∀ i : Nat, backoffDelay i ≤ 10000) := by
  refine ⟨?_, by decide, by decide, ?_, ?_⟩
  · intro net refresh b h0 h1 h2
    rw [API.call]
    rw [API.callLoop]; simp only [h0]
    rw [API.callLoop]; simp only [h1]
    rw [API.callLoop]; simp only [h2]
    simp [backoffDelay]
  · intro i
    have hx : (2 : Nat) ^ (i + 1) = 2 ^ i * 2 := pow_succ 2 i
    unfold backoffDelay
    rw [hx]
    generalize (2 : Nat) ^ i = x
    omega
  · intro i
    unfold backoffDelay
    omega

/-- Witness for C4 at a concrete network oracle. -/
theorem c4_retry_backoff_witness :
    API.call (fun n => if n < 2 then FetchOutcome.netError
        else FetchOutcome.response 200 "B") (fun _ => true) 3 =
      { result := CallOutcome.ok "B", attempts := 3, refreshes := 0,
        delays := [backoffDelay 0, backoffDelay 1] } ∧
    backoffDelay 1 = min (2 * backoffDelay 0) 10000 ∧
    backoffDelay 5 ≤ 10000 :=
  ⟨c4_retry_backoff.1 _ _ "B" (by decide) (by decide) (by decide),
   c4_retry_backoff.2.2.2.1 0, c4_retry_backoff.2.2.2.2 5⟩

/-- C3 counterexample: a network returning 401 on every attempt with a
succeeding refresh (budget 2) performs exactly one refresh, but the
second 401 is surfaced as the generic HTTP error carrying status 401 —
not as the session-expired error the claim demands. -/
theorem c3_counterexample :
    API.call (fun _ => FetchOutcome.response 401 "B") (fun _ => true) 2 =
      { result := CallOutcome.thrown (some (ApiError.httpError 401 "B")),
        attempts := 2, refreshes := 1, delays := [] } ∧
    (API.call (fun _ => FetchOutcome.response 401 "B") (fun _ => true)
        2).result ≠
      CallOutcome.thrown (some ApiError.sessionExpired) := by
  have h : API.call (fun _ => FetchOutcome.response 401 "B")
      (fun _ => true) 2 =
      { result := CallOutcome.thrown (some (ApiError.httpError 401 "B")),
        attempts := 2, refreshes := 1, delays := [] } := by
    rw [API.call]
    rw [API.callLoop]; simp only
    rw [API.callLoop]; simp only
    simp [API.callLoop]
  exact ⟨h, by rw [h]; decide⟩

/-- C3 amended: with budget 2, a 401 followed by 200 after a successful
refresh returns the 200 body with exactly one refresh (the refresh retry
consumes a retry slot); a second 401 after the refresh has been used
triggers no second refresh, but is surfaced as the generic HTTP error
carrying status 401 rather than a session-expired error — the
session-expired error arises only when the token refresh itself fails. -/
theorem c3_auth_refresh_amended :
    (∀ (net : Nat → FetchOutcome) (refresh : Nat → Bool) (b1 b2 : String),
      net 0 = FetchOutcome.response 401 b1 →
      net 1 = FetchOutcome.response 200 b2 → refresh 0 = true →
      API.call net refresh 2 =
        { result := CallOutcome.ok b2, attempts := 2, refreshes := 1,
          delays := [] }) ∧
    (∀ (net : Nat → FetchOutcome) (refresh : Nat → Bool) (b1 b2 : String),
      net 0 = FetchOutcome.response 401 b1 →
      net 1 = FetchOutcome.response 401 b2 → refresh 0 = true →
      API.call net refresh 2 =
        { result := CallOutcome.thrown (some (ApiError.httpError 401 b2)),
          attempts := 2, refreshes := 1, delays := [] }) := by
  constructor
  · intro net refresh b1 b2 h0 h1 hr
    rw [API.call]
    rw [API.callLoop]; simp only [h0, hr]
    rw [API.callLoop]; simp only [h1]
    simp
  · intro net refresh b1 b2 h0 h1 hr
    rw [API.call]
    rw [API.callLoop]; simp only [h0, hr]
    rw [API.callLoop]; simp only [h1]
    simp [API.callLoop]

/-- Witness for the amended C3 at concrete oracles. -/
theorem c3_auth_refresh_amended_witness :
    API.call (fun n => if n = 0 then FetchOutcome.response 401 "x"
        else FetchOutcome.response 200 "B") (fun _ => true) 2 =
      { result := CallOutcome.ok "B", attempts := 2, refreshes := 1,
        delays := [] } ∧
    API.call (fun n => if n = 0 then FetchOutcome.response 401 "x"
        else FetchOutcome.response 401 "y") (fun _ => true) 2 =
      { result := CallOutcome.thrown (some (ApiError.httpError 401 "y")),
        attempts := 2, refreshes := 1, delays := [] } :=
  ⟨c3_auth_refresh_amended.1 _ _ "x" "B" (by decide) (by decide) (by decide),
   c3_auth_refresh_amended.2 _ _ "x" "y" (by decide) (by decide) (by decide)⟩

/-! ## Lemmas about the styling primitives (for C5) -/

theorem styleGet_styleSet_self (st : List (String × String)) (k v : String) :
    styleGet (styleSet st k v) k = v := by
  induction st with
  | nil => simp [styleSet, styleGet]
  | cons kv rest ih =>
    by_cases h : (kv.1 == k) = true
    · simp [styleSet, styleGet, h]
    · simp only [Bool.not_eq_true] at h
      simp [styleSet, styleGet, h, ih]

theorem styleGet_styleSet_ne (st : List (String × String)) (k k2 v : String)
    (h : (k2 == k) = false) :
    styleGet (styleSet st k2 v) k = styleGet st k := by
  induction st with
  | nil => simp [styleSet, styleGet, h]
  | cons kv rest ih =>
    by_cases h1 : (kv.1 == k2) = true
    · have hk : (kv.1 == k) = false := by
        have := eq_of_beq h1
        subst this
        exact h
      simp [styleSet, styleGet, h1, h, hk]
    · simp only [Bool.not_eq_true] at h1
      simp only [styleSet, h1, Bool.false_eq_true, if_false]
      by_cases h2 : (kv.1 == k) = true
      · simp [styleGet, h2]
      · simp only [Bool.not_eq_true] at h2
        simp [styleGet, h2, ih]

theorem applyProp_of_set (k v : String) (st : List (String × String))
    (h : ¬ styleGet st k = "") : applyProp k v st = st := by
  have hb : (styleGet st k == "") = false := by
    simpa using h
  simp [applyProp, hb]

theorem applyProp_get_self (k v : String) (st : List (String × String))
    (hv : v ≠ "") : ¬ styleGet (applyProp k v st) k = "" := by
  unfold applyProp
  by_cases h : (styleGet st k == "") = true
  · simp [h, styleGet_styleSet_self, hv]
  · simp only [h, Bool.false_eq_true, if_false]
    simpa using h

theorem applyProp_get_preserve (k k2 v2 : String)
    (st : List (String × String)) (hv : v2 ≠ "")
    (h : ¬ styleGet st k = "") :
    ¬ styleGet (applyProp k2 v2 st) k = "" := by
  unfold applyProp
  by_cases hc : (styleGet st k2 == "") = true
  · simp only [hc, if_true]
    by_cases hk : (k2 == k) = true
    · have := eq_of_beq hk
      subst this
      simp [styleGet_styleSet_self, hv]
    · simp only [Bool.not_eq_true] at hk
      rw [styleGet_styleSet_ne st k k2 v2 hk]
      exact h
  · simp only [hc, Bool.false_eq_true, if_false]
    exact h

theorem styleSet_of_get_eq (st : List (String × String)) (k v : String)
    (hg : styleGet st k = v) (hv : v ≠ "") : styleSet st k v = st := by
  induction st with
  | nil =>
    simp [styleGet] at hg
    exact absurd hg.symm hv
  | cons kv rest ih =>
    by_cases h : (kv.1 == k) = true
    · have he := eq_of_beq h
      simp only [styleGet, h, if_true] at hg
      simp [styleSet, h, ← he, ← hg]
    · simp only [Bool.not_eq_true] at h
      simp only [styleGet, h, Bool.false_eq_true, if_false] at hg
      simp [styleSet, h, ih hg]

theorem includesSet_idem (cn t : String) :
    includesSet (includesSet cn t) t = includesSet cn t := by
  unfold includesSet
  by_cases h : jsIncludes cn t = true
  · simp [h]
  · simp [h]

theorem cssTextIfEmpty_idem (dflt st : List (String × String))
    (h : dflt ≠ []) :
    cssTextIfEmpty dflt (cssTextIfEmpty dflt st) = cssTextIfEmpty dflt st := by
  cases st with
  | nil =>
    cases dflt with
    | nil => exact absurd rfl h
    | cons a l => rfl
  | cons a l => rfl

theorem hdrMarginTop_ne (tag : String) : ¬ hdrMarginTop tag = "" := by
  unfold hdrMarginTop
  split_ifs <;> decide

theorem hdrMarginBottom_ne (tag : String) : ¬ hdrMarginBottom tag = "" := by
  unfold hdrMarginBottom
  split_ifs <;> decide

/-- Branch unfolding: header tags. -/
theorem applyRules_eq_header (p : Bool) (tag cn : String)
    (st attrs : List (String × String)) (h1 : isHeaderTag tag = true) :
    applyRules p tag cn st attrs =
      (includesSet cn "content-header",
        applyProp "color" "#2c3e50"
          (applyProp "marginBottom" (hdrMarginBottom tag)
            (applyProp "marginTop" (hdrMarginTop tag) st)), attrs) := by
  unfold applyRules
  simp only [h1, if_true]

/-- Branch unfolding: paragraphs. -/
theorem applyRules_eq_p (p : Bool) (tag cn : String)
    (st attrs : List (String × String)) (h1 : ¬ isHeaderTag tag = true)
    (h2 : (tag == "p") = true) :
    applyRules p tag cn st attrs =
      (includesSet cn "content-paragraph",
        applyProp "lineHeight" "1.6" (applyProp "marginBottom" "16px" st),
        attrs) := by
  unfold applyRules
  simp only [h1, h2, Bool.false_eq_true, if_false, if_true]

/-- Branch unfolding: blockquotes. -/
theorem applyRules_eq_bq (p : Bool) (tag cn : String)
    (st attrs : List (String × String)) (h1 : ¬ isHeaderTag tag = true)
    (h2 : ¬ (tag == "p") = true) (h3 : (tag == "blockquote") = true) :
    applyRules p tag cn st attrs =
      (includesSet cn "content-blockquote", cssTextIfEmpty bqCss st, attrs) := by
  unfold applyRules
  simp only [h1, h2, h3, Bool.false_eq_true, if_false, if_true]

/-- Branch unfolding: pre blocks. -/
theorem applyRules_eq_pre (p : Bool) (tag cn : String)
    (st attrs : List (String × String)) (h1 : ¬ isHeaderTag tag = true)
    (h2 : ¬ (tag == "p") = true) (h3 : ¬ (tag == "blockquote") = true)
    (h4 : (tag == "pre") = true) :
    applyRules p tag cn st attrs =
      (includesSet cn "content-pre", cssTextIfEmpty preCss st, attrs) := by
  unfold applyRules
  simp only [h1, h2, h3, h4, Bool.false_eq_true, if_false, if_true]

/-- Branch unfolding: inline code outside pre. -/
theorem applyRules_eq_code (p : Bool) (tag cn : String)
    (st attrs : List (String × String)) (h1 : ¬ isHeaderTag tag = true)
    (h2 : ¬ (tag == "p") = true) (h3 : ¬ (tag == "blockquote") = true)
    (h4 : ¬ (tag == "pre") = true) (h5 : (tag == "code" && !p) = true) :
    applyRules p tag cn st attrs =
      (includesSet cn "inline-code", cssTextIfEmpty codeCss st, attrs) := by
  unfold applyRules
  simp only [h1, h2, h3, h4, h5, Bool.false_eq_true, if_false, if_true]

/-- Branch unfolding: lists. -/
theorem applyRules_eq_list (p : Bool) (tag cn : String)
    (st attrs : List (String × String)) (h1 : ¬ isHeaderTag tag = true)
    (h2 : ¬ (tag == "p") = true) (h3 : ¬ (tag == "blockquote") = true)
    (h4 : ¬ (tag == "pre") = true) (h5 : ¬ (tag == "code" && !p) = true)
    (h6 : (tag == "ul" || tag == "ol") = true) :
    applyRules p tag cn st attrs =
      (includesSet cn "content-list",
        applyProp "margin" "20px 0 20px 30px" st, attrs) := by
  unfold applyRules
  simp only [h1, h2, h3, h4, h5, h6, Bool.false_eq_true, if_false, if_true]

/-- Branch unfolding: list items. -/
theorem applyRules_eq_li (p : Bool) (tag cn : String)
    (st attrs : List (String × String)) (h1 : ¬ isHeaderTag tag = true)
    (h2 : ¬ (tag == "p") = true) (h3 : ¬ (tag == "blockquote") = true)
    (h4 : ¬ (tag == "pre") = true) (h5 : ¬ (tag == "code" && !p) = true)
    (h6 : ¬ (tag == "ul" || tag == "ol") = true) (h7 : (tag == "li") = true) :
    applyRules p tag cn st attrs =
      (includesSet cn "content-list-item",
        applyProp "marginBottom" "8px" st, attrs) := by
  unfold applyRules
  simp only [h1, h2, h3, h4, h5, h6, h7, Bool.false_eq_true, if_false, if_true]

/-- Branch unfolding: images. -/
theorem applyRules_eq_img (p : Bool) (tag cn : String)
    (st attrs : List (String × String)) (h1 : ¬ isHeaderTag tag = true)
    (h2 : ¬ (tag == "p") = true) (h3 : ¬ (tag == "blockquote") = true)
    (h4 : ¬ (tag == "pre") = true) (h5 : ¬ (tag == "code" && !p) = true)
    (h6 : ¬ (tag == "ul" || tag == "ol") = true)
    (h7 : ¬ (tag == "li") = true) (h8 : (tag == "img") = true) :
    applyRules p tag cn st attrs =
      (includesSet cn "content-image",
        applyProp "borderRadius" "4px" (applyProp "display" "block"
          (applyProp "margin" "20px 0" (applyProp "height" "auto"
            (applyProp "maxWidth" "100%" st)))), attrs) := by
  unfold applyRules
  simp only [h1, h2, h3, h4, h5, h6, h7, h8, Bool.false_eq_true, if_false,
    if_true]

/-- Branch unfolding: links. -/
theorem applyRules_eq_a (p : Bool) (tag cn : String)
    (st attrs : List (String × String)) (h1 : ¬ isHeaderTag tag = true)
    (h2 : ¬ (tag == "p") = true) (h3 : ¬ (tag == "blockquote") = true)
    (h4 : ¬ (tag == "pre") = true) (h5 : ¬ (tag == "code" && !p) = true)
    (h6 : ¬ (tag == "ul" || tag == "ol") = true)
    (h7 : ¬ (tag == "li") = true) (h8 : ¬ (tag == "img") = true)
    (h9 : (tag == "a") = true) :
    applyRules p tag cn st attrs =
      (cn, st,
        if (!(styleGet attrs "href" == "") &&
            !(match (styleGet attrs "href").data with
              | c :: _ => c == '#'
              | [] => false)) = true then
          styleSet (styleSet attrs "target" "_blank") "rel"
            "noopener noreferrer"
        else attrs) := by
  unfold applyRules
  simp only [h1, h2, h3, h4, h5, h6, h7, h8, h9, Bool.false_eq_true,
    if_false, if_true]

/-- Branch unfolding: any other element. -/
theorem applyRules_eq_other (p : Bool) (tag cn : String)
    (st attrs : List (String × String)) (h1 : ¬ isHeaderTag tag = true)
    (h2 : ¬ (tag == "p") = true) (h3 : ¬ (tag == "blockquote") = true)
    (h4 : ¬ (tag == "pre") = true) (h5 : ¬ (tag == "code" && !p) = true)
    (h6 : ¬ (tag == "ul" || tag == "ol") = true)
    (h7 : ¬ (tag == "li") = true) (h8 : ¬ (tag == "img") = true)
    (h9 : ¬ (tag == "a") = true) :
    applyRules p tag cn st attrs = (cn, st, attrs) := by
  unfold applyRules
  simp only [h1, h2, h3, h4, h5, h6, h7, h8, h9, Bool.false_eq_true,
    if_false, if_true]

/-- The per-element rule of `addContentStyling` is idempotent: applying
it to its own output changes nothing (every class/style write is guarded
or writes the value already present). -/
theorem applyRules_idem (p : Bool) (tag cn : String)
    (st attrs : List (String × String)) :
    applyRules p tag (applyRules p tag cn st attrs).1
      (applyRules p tag cn st attrs).2.1
      (applyRules p tag cn st attrs).2.2 =
    applyRules p tag cn st attrs := by
  by_cases h1 : isHeaderTag tag = true
  · rw [applyRules_eq_header p tag cn st attrs h1]
    rw [applyRules_eq_header p tag _ _ _ h1]
    have g1 : ¬ styleGet (applyProp "color" "#2c3e50"
        (applyProp "marginBottom" (hdrMarginBottom tag)
          (applyProp "marginTop" (hdrMarginTop tag) st))) "marginTop" = "" := by
      apply applyProp_get_preserve _ _ _ _ (by decide)
      apply applyProp_get_preserve _ _ _ _ (hdrMarginBottom_ne tag)
      exact applyProp_get_self _ _ _ (hdrMarginTop_ne tag)
    have g2 : ¬ styleGet (applyProp "color" "#2c3e50"
        (applyProp "marginBottom" (hdrMarginBottom tag)
          (applyProp "marginTop" (hdrMarginTop tag) st))) "marginBottom" = "" := by
      apply applyProp_get_preserve _ _ _ _ (by decide)
      exact applyProp_get_self _ _ _ (hdrMarginBottom_ne tag)
    have g3 : ¬ styleGet (applyProp "color" "#2c3e50"
        (applyProp "marginBottom" (hdrMarginBottom tag)
          (applyProp "marginTop" (hdrMarginTop tag) st))) "color" = "" :=
      applyProp_get_self _ _ _ (by decide)
    rw [applyProp_of_set _ _ _ g1, applyProp_of_set _ _ _ g2,
      applyProp_of_set _ _ _ g3, includesSet_idem]
  · by_cases h2 : (tag == "p") = true
    · rw [applyRules_eq_p p tag cn st attrs h1 h2]
      rw [applyRules_eq_p p tag _ _ _ h1 h2]
      have g1 : ¬ styleGet (applyProp "lineHeight" "1.6"
          (applyProp "marginBottom" "16px" st)) "marginBottom" = "" := by
        apply applyProp_get_preserve _ _ _ _ (by decide)
        exact applyProp_get_self _ _ _ (by decide)
      have g2 : ¬ styleGet (applyProp "lineHeight" "1.6"
          (applyProp "marginBottom" "16px" st)) "lineHeight" = "" :=
        applyProp_get_self _ _ _ (by decide)
      rw [applyProp_of_set _ _ _ g1, applyProp_of_set _ _ _ g2,
        includesSet_idem]
    · by_cases h3 : (tag == "blockquote") = true
      · rw [applyRules_eq_bq p tag cn st attrs h1 h2 h3]
        rw [applyRules_eq_bq p tag _ _ _ h1 h2 h3]
        rw [cssTextIfEmpty_idem _ _ (by decide), includesSet_idem]
      · by_cases h4 : (tag == "pre") = true
        · rw [applyRules_eq_pre p tag cn st attrs h1 h2 h3 h4]
          rw [applyRules_eq_pre p tag _ _ _ h1 h2 h3 h4]
          rw [cssTextIfEmpty_idem _ _ (by decide), includesSet_idem]
        · by_cases h5 : (tag == "code" && !p) = true
          · rw [applyRules_eq_code p tag cn st attrs h1 h2 h3 h4 h5]
            rw [applyRules_eq_code p tag _ _ _ h1 h2 h3 h4 h5]
            rw [cssTextIfEmpty_idem _ _ (by decide), includesSet_idem]
          · by_cases h6 : (tag == "ul" || tag == "ol") = true
            · rw [applyRules_eq_list p tag cn st attrs h1 h2 h3 h4 h5 h6]
              rw [applyRules_eq_list p tag _ _ _ h1 h2 h3 h4 h5 h6]
              have g1 : ¬ styleGet (applyProp "margin" "20px 0 20px 30px" st)
                  "margin" = "" :=
                applyProp_get_self _ _ _ (by decide)
              rw [applyProp_of_set _ _ _ g1, includesSet_idem]
            · by_cases h7 : (tag == "li") = true
              · rw [applyRules_eq_li p tag cn st attrs h1 h2 h3 h4 h5 h6 h7]
                rw [applyRules_eq_li p tag _ _ _ h1 h2 h3 h4 h5 h6 h7]
                have g1 : ¬ styleGet (applyProp "marginBottom" "8px" st)
                    "marginBottom" = "" :=
                  applyProp_get_self _ _ _ (by decide)
                rw [applyProp_of_set _ _ _ g1, includesSet_idem]
              · by_cases h8 : (tag == "img") = true
                · rw [applyRules_eq_img p tag cn st attrs h1 h2 h3 h4 h5 h6
                    h7 h8]
                  rw [applyRules_eq_img p tag _ _ _ h1 h2 h3 h4 h5 h6 h7 h8]
                  have g1 : ¬ styleGet (applyProp "borderRadius" "4px"
                      (applyProp "display" "block" (applyProp "margin" "20px 0"
                        (applyProp "height" "auto"
                          (applyProp "maxWidth" "100%" st)))))
                      "maxWidth" = "" := by
                    apply applyProp_get_preserve _ _ _ _ (by decide)
                    apply applyProp_get_preserve _ _ _ _ (by decide)
                    apply applyProp_get_preserve _ _ _ _ (by decide)
                    apply applyProp_get_preserve _ _ _ _ (by decide)
                    exact applyProp_get_self _ _ _ (by decide)
                  have g2 : ¬ styleGet (applyProp "borderRadius" "4px"
                      (applyProp "display" "block" (applyProp "margin" "20px 0"
                        (applyProp "height" "auto"
                          (applyProp "maxWidth" "100%" st)))))
                      "height" = "" := by
                    apply applyProp_get_preserve _ _ _ _ (by decide)
                    apply applyProp_get_preserve _ _ _ _ (by decide)
                    apply applyProp_get_preserve _ _ _ _ (by decide)
                    exact applyProp_get_self _ _ _ (by decide)
                  have g3 : ¬ styleGet (applyProp "borderRadius" "4px"
                      (applyProp "display" "block" (applyProp "margin" "20px 0"
                        (applyProp "height" "auto"
                          (applyProp "maxWidth" "100%" st)))))
                      "margin" = "" := by
                    apply applyProp_get_preserve _ _ _ _ (by decide)
                    apply applyProp_get_preserve _ _ _ _ (by decide)
                    exact applyProp_get_self _ _ _ (by decide)
                  have g4 : ¬ styleGet (applyProp "borderRadius" "4px"
                      (applyProp "display" "block" (applyProp "margin" "20px 0"
                        (applyProp "height" "auto"
                          (applyProp "maxWidth" "100%" st)))))
                      "display" = "" := by
                    apply applyProp_get_preserve _ _ _ _ (by decide)
                    exact applyProp_get_self _ _ _ (by decide)
                  have g5 : ¬ styleGet (applyProp "borderRadius" "4px"
                      (applyProp "display" "block" (applyProp "margin" "20px 0"
                        (applyProp "height" "auto"
                          (applyProp "maxWidth" "100%" st)))))
                      "borderRadius" = "" :=
                    applyProp_get_self _ _ _ (by decide)
                  rw [applyProp_of_set _ _ _ g1, applyProp_of_set _ _ _ g2,
                    applyProp_of_set _ _ _ g3, applyProp_of_set _ _ _ g4,
                    applyProp_of_set _ _ _ g5, includesSet_idem]
                · by_cases h9 : (tag == "a") = true
                  · rw [applyRules_eq_a p tag cn st attrs h1 h2 h3 h4 h5 h6
                      h7 h8 h9]
                    by_cases hc : (!(styleGet attrs "href" == "") &&
                        !(match (styleGet attrs "href").data with
                          | c :: _ => c == '#'
                          | [] => false)) = true
                    · rw [if_pos hc]
                      rw [applyRules_eq_a p tag _ _ _ h1 h2 h3 h4 h5 h6 h7
                        h8 h9]
                      have hhr : styleGet (styleSet (styleSet attrs "target"
                          "_blank") "rel" "noopener noreferrer") "href" =
                          styleGet attrs "href" := by
                        rw [styleGet_styleSet_ne _ _ _ _ (by decide),
                          styleGet_styleSet_ne _ _ _ _ (by decide)]
                      rw [hhr, if_pos hc]
                      have e1 : styleSet (styleSet (styleSet attrs "target"
                          "_blank") "rel" "noopener noreferrer") "target"
                          "_blank" =
                          styleSet (styleSet attrs "target" "_blank") "rel"
                            "noopener noreferrer" := by
                        apply styleSet_of_get_eq _ _ _ _ (by decide)
                        rw [styleGet_styleSet_ne _ _ _ _ (by decide)]
                        exact styleGet_styleSet_self _ _ _
                      rw [e1]
                      have e2 : styleSet (styleSet (styleSet attrs "target"
                          "_blank") "rel" "noopener noreferrer") "rel"
                          "noopener noreferrer" =
                          styleSet (styleSet attrs "target" "_blank") "rel"
                            "noopener noreferrer" := by
                        apply styleSet_of_get_eq _ _ _ _ (by decide)
                        exact styleGet_styleSet_self _ _ _
                      rw [e2]
                    · rw [if_neg hc]
                      rw [applyRules_eq_a p tag _ _ _ h1 h2 h3 h4 h5 h6 h7
                        h8 h9]
                      rw [if_neg hc]
                  · rw [applyRules_eq_other p tag cn st attrs h1 h2 h3 h4 h5
                      h6 h7 h8 h9]
                    rw [applyRules_eq_other p tag _ _ _ h1 h2 h3 h4 h5 h6 h7
                      h8 h9]
mutual
/-- The `addContentStyling` traversal is idempotent on single nodes. -/
theorem styleNode_idem (p : Bool) (n : Node) :
    styleNode p (styleNode p n) = styleNode p n := by
  cases n with
  | text s => rfl
  | elem tag cn st attrs children =>
    simp only [styleNode]
    rw [applyRules_idem, styleNodes_idem]
/-- The `addContentStyling` traversal is idempotent on forests. -/
theorem styleNodes_idem (p : Bool) (l : List Node) :
    styleNodes p (styleNodes p l) = styleNodes p l := by
  cases l with
  | nil => rfl
  | cons n ns =>
    simp only [styleNodes]
    rw [styleNode_idem, styleNodes_idem]
end

/-- C5 counterexample: rendering a one-table document twice duplicates
the `div.table-responsive` wrapper (two nested wrappers after the second
pass), so `render (render html)` structurally differs from
`render html`. -/
theorem c5_counterexample :
    wrapCounts (processQuillContentHtml (processQuillContentHtml
      [Node.elem "table" "" [] [] [Node.elem "tr" "" [] []
        [Node.elem "td" "" [] [] [Node.text "x"]]]])) = 2 ∧
    wrapCounts (processQuillContentHtml
      [Node.elem "table" "" [] [] [Node.elem "tr" "" [] []
        [Node.elem "td" "" [] [] [Node.text "x"]]]]) = 1 ∧
    processQuillContentHtml (processQuillContentHtml
      [Node.elem "table" "" [] [] [Node.elem "tr" "" [] []
        [Node.elem "td" "" [] [] [Node.text "x"]]]]) ≠
      processQuillContentHtml
        [Node.elem "table" "" [] [] [Node.elem "tr" "" [] []
          [Node.elem "td" "" [] [] [Node.text "x"]]]] := by
  have h2 : wrapCounts (processQuillContentHtml (processQuillContentHtml
      [Node.elem "table" "" [] [] [Node.elem "tr" "" [] []
        [Node.elem "td" "" [] [] [Node.text "x"]]]])) = 2 := by
    simp only [processQuillContentHtml, enhanceTables]
    simp [enhanceNodes, enhanceNode, cellNodes, cellNode, stripeNodes,
      stripeNode, addContentStyling, styleNodes, styleNode, applyRules]
    decide
  have h1 : wrapCounts (processQuillContentHtml
      [Node.elem "table" "" [] [] [Node.elem "tr" "" [] []
        [Node.elem "td" "" [] [] [Node.text "x"]]]]) = 1 := by
    simp only [processQuillContentHtml, enhanceTables]
    simp [enhanceNodes, enhanceNode, cellNodes, cellNode, stripeNodes,
      stripeNode]
    decide
  refine ⟨h2, h1, fun he => ?_⟩
  rw [he, h1] at h2
  exact absurd h2 (by decide)

/-- C5 amended: the generic styling pass `addContentStyling` is
idempotent (every class or inline style is applied only when not already
set), but the table pass is not: each render wraps every table in a
fresh `div.table-responsive` container, so running render twice adds a
second wrapper around the table. -/
theorem c5_styling_idempotence_amended :
    (∀ nodes : List Node,
      addContentStyling (addContentStyling nodes) = addContentStyling nodes) ∧
    wrapCounts (processQuillContentHtml
      [Node.elem "table" "" [] [] [Node.elem "tr" "" [] []
        [Node.elem "td" "" [] [] [Node.text "x"]]]]) = 1 ∧
    wrapCounts (processQuillContentHtml (processQuillContentHtml
      [Node.elem "table" "" [] [] [Node.elem "tr" "" [] []
        [Node.elem "td" "" [] [] [Node.text "x"]]]])) = 2 := by
  refine ⟨fun nodes => styleNodes_idem false nodes, ?_, ?_⟩
  · simp only [processQuillContentHtml, enhanceTables]
    simp [enhanceNodes, enhanceNode, cellNodes, cellNode, stripeNodes,
      stripeNode]
    decide
  · simp only [processQuillContentHtml, enhanceTables]
    simp [enhanceNodes, enhanceNode, cellNodes, cellNode, stripeNodes,
      stripeNode, addContentStyling, styleNodes, styleNode, applyRules]
    decide

/-- Witness for C10 at a concrete network oracle. -/
theorem c10_zero_budget_witness :
    API.call (fun _ => FetchOutcome.response 200 "B") (fun _ => true) 0 =
      { result := CallOutcome.thrown none, attempts := 0, refreshes := 0,
        delays := [] } :=
  c10_zero_budget (fun _ => FetchOutcome.response 200 "B") (fun _ => true)

/-- Witness for the amended C5 at a concrete paragraph node. -/
theorem c5_styling_idempotence_amended_witness :
    addContentStyling (addContentStyling
      [Node.elem "p" "" [] [] [Node.text "t"]]) =
      addContentStyling [Node.elem "p" "" [] [] [Node.text "t"]] :=
  c5_styling_idempotence_amended.1 [Node.elem "p" "" [] [] [Node.text "t"]]

end ContentPipeline
